import Mathlib

/-!
Shallow embedding of the editing core of the `aied` modal text editor
(`internal/buffer/buffer.go`, `internal/modes/*.go`, `internal/commands/*.go`)
together with proofs of the specification's claims about it.

Go strings are modelled as lists of characters (`Str`); Go's machine `int`
is modelled as `Int` wherever a value can be negative in the source (cursor
positions, scan columns) and as `Nat` where the source only ever produces a
length.  Fallible methods on `Buffer` mutate their receiver and return an
`error`; they are embedded as functions `Buffer → Buffer × Bool` returning
the receiver's state after the call together with a success flag (`false`
models a non-nil Go error).  File-system and network effects (`os.Create`,
LSP, AI providers) are external to the core and are modelled as explicit
environment parameters.
-/

namespace Aied

/-- Go strings, at character granularity. -/
abbrev Str := List Char

/-- Coercion from Lean string literals to `Str`. -/
def str (s : String) : Str := s.data

/-- Models `unicode.IsSpace` on the Latin-1 range ('\t', '\n', vertical tab,
form feed, '\r', ' ', NEL U+0085, NBSP U+00A0); the Unicode table cases above
U+00FF are omitted. -/
def goIsSpace (c : Char) : Bool :=
  c.toNat = 32 || c.toNat = 9 || c.toNat = 10 || c.toNat = 11 ||
  c.toNat = 12 || c.toNat = 13 || c.toNat = 133 || c.toNat = 160

/-- `buffer.Position`: a cursor position (0-based line and column, Go `int`). -/
structure Position where
  line : Int
  col : Int
deriving Repr, DecidableEq

/-- `buffer.Buffer`: lines of text, a cursor, an associated filename
(empty = unsaved) and a dirty flag. -/
structure Buffer where
  lines : List Str
  cursor : Position
  filename : Str
  modified : Bool
deriving Repr, DecidableEq

/-- Go `b.lines[i]` for an index that the source has already bounds-checked
(out-of-range access panics in Go; the default here is never reached on the
guarded paths). -/
def getIdx (ls : List Str) (i : Int) : Str := ls.getD i.toNat []

namespace Buffer

/-- `buffer.New`: one empty line, cursor at the origin, unmodified. -/
def new : Buffer := ⟨[[]], ⟨0, 0⟩, [], false⟩

/-- `Buffer.LineCount`. -/
def lineCount (b : Buffer) : Nat := b.lines.length

/-- `Buffer.CurrentLine`: content of the cursor line, or "" out of range. -/
def currentLine (b : Buffer) : Str :=
  if 0 ≤ b.cursor.line ∧ b.cursor.line < (b.lines.length : Int) then
    getIdx b.lines b.cursor.line
  else []

/-- `Buffer.SetCursor`: clamps the line into `[0, lineCount-1]` and the
column into `[0, len(line)]`, then commits. -/
def setCursor (b : Buffer) (pos : Position) : Buffer :=
  let line : Int :=
    if pos.line < 0 then 0
    else if (b.lines.length : Int) ≤ pos.line then (b.lines.length : Int) - 1
    else pos.line
  let lineLen : Int := ((getIdx b.lines line).length : Int)
  let col : Int :=
    if pos.col < 0 then 0
    else if lineLen < pos.col then lineLen
    else pos.col
  { b with cursor := ⟨line, col⟩ }

/-- `Buffer.MoveCursor`: computes a target position and delegates to
`setCursor`. -/
def moveCursor (b : Buffer) (deltaLine deltaCol : Int) : Buffer :=
  b.setCursor ⟨b.cursor.line + deltaLine, b.cursor.col + deltaCol⟩

/-- `Buffer.InsertChar`: inserts `ch` at the cursor, advances the column,
sets `modified`; errors if the cursor is out of range. -/
def insertChar (b : Buffer) (ch : Char) : Buffer × Bool :=
  if b.cursor.line < 0 ∨ (b.lines.length : Int) ≤ b.cursor.line then (b, false)
  else
    let line := getIdx b.lines b.cursor.line
    if b.cursor.col < 0 ∨ (line.length : Int) < b.cursor.col then (b, false)
    else
      let c := b.cursor.col.toNat
      let newLine := line.take c ++ [ch] ++ line.drop c
      ({ b with lines := b.lines.set b.cursor.line.toNat newLine,
                cursor := ⟨b.cursor.line, b.cursor.col + 1⟩,
                modified := true }, true)

/-- `Buffer.DeleteChar`: removes the character at the cursor (cursor does not
move); errors if the column is at or past line end. -/
def deleteChar (b : Buffer) : Buffer × Bool :=
  if b.cursor.line < 0 ∨ (b.lines.length : Int) ≤ b.cursor.line then (b, false)
  else
    let line := getIdx b.lines b.cursor.line
    if b.cursor.col < 0 ∨ (line.length : Int) ≤ b.cursor.col then (b, false)
    else if (line.length : Int) ≤ b.cursor.col then (b, false)
    else
      let c := b.cursor.col.toNat
      let newLine := line.take c ++ line.drop (c + 1)
      ({ b with lines := b.lines.set b.cursor.line.toNat newLine,
                modified := true }, true)

/-- `Buffer.Backspace`: removes the character before the cursor; at column 0
merges the current line onto the previous one (removing the vacated line),
erroring at the very start of the buffer. -/
def backspace (b : Buffer) : Buffer × Bool :=
  if b.cursor.line < 0 ∨ (b.lines.length : Int) ≤ b.cursor.line then (b, false)
  else if b.cursor.col = 0 then
    if b.cursor.line = 0 then (b, false)
    else
      let l := b.cursor.line.toNat
      let cur := getIdx b.lines b.cursor.line
      let prevLineLen := (getIdx b.lines (b.cursor.line - 1)).length
      let lines1 := b.lines.set (l - 1) (getIdx b.lines (b.cursor.line - 1) ++ cur)
      let lines2 := lines1.take l ++ lines1.drop (l + 1)
      ({ b with lines := lines2,
                cursor := ⟨b.cursor.line - 1, (prevLineLen : Int)⟩,
                modified := true }, true)
  else
    let c := b.cursor.col.toNat
    let line := getIdx b.lines b.cursor.line
    let newLine := line.take (c - 1) ++ line.drop c
    ({ b with lines := b.lines.set b.cursor.line.toNat newLine,
              cursor := ⟨b.cursor.line, b.cursor.col - 1⟩,
              modified := true }, true)

/-- `Buffer.InsertLine` (Enter semantics): splits the current line at the
cursor column; the right part becomes a new line below, the cursor moves to
its start. -/
def insertLine (b : Buffer) : Buffer × Bool :=
  if b.cursor.line < 0 ∨ (b.lines.length : Int) ≤ b.cursor.line then (b, false)
  else
    let cur := getIdx b.lines b.cursor.line
    if b.cursor.col < 0 ∨ (cur.length : Int) < b.cursor.col then (b, false)
    else
      let l := b.cursor.line.toNat
      let c := b.cursor.col.toNat
      let leftPart := cur.take c
      let rightPart := cur.drop c
      let lines1 := b.lines.set l leftPart
      let newLines := lines1.take (l + 1) ++ [rightPart] ++ lines1.drop (l + 1)
      ({ b with lines := newLines,
                cursor := ⟨b.cursor.line + 1, 0⟩,
                modified := true }, true)

/-- `Buffer.InsertEmptyLine`: inserts an empty line above the current line;
the cursor column resets to 0 (the line index is unchanged, so the cursor
rests on the new empty line). -/
def insertEmptyLine (b : Buffer) : Buffer × Bool :=
  if b.cursor.line < 0 ∨ (b.lines.length : Int) ≤ b.cursor.line then (b, false)
  else
    let l := b.cursor.line.toNat
    let newLines := b.lines.take l ++ [[]] ++ b.lines.drop l
    ({ b with lines := newLines,
              cursor := ⟨b.cursor.line, 0⟩,
              modified := true }, true)

/-- `Buffer.DeleteLine`: removes the current line, clamping the cursor; a
sole remaining line is cleared to "" instead of being removed. -/
def deleteLine (b : Buffer) : Buffer × Bool :=
  if (b.lines.length : Int) ≤ 1 then
    ({ b with lines := b.lines.set 0 [], cursor := ⟨0, 0⟩, modified := true }, true)
  else if b.cursor.line < 0 ∨ (b.lines.length : Int) ≤ b.cursor.line then (b, false)
  else
    let l := b.cursor.line.toNat
    let newLines := b.lines.take l ++ b.lines.drop (l + 1)
    let newLine : Int :=
      if (newLines.length : Int) ≤ b.cursor.line then (newLines.length : Int) - 1
      else b.cursor.line
    let newCol : Int :=
      if 0 ≤ newLine ∧ newLine < (newLines.length : Int) then
        let lineLen : Int := ((getIdx newLines newLine).length : Int)
        if lineLen < b.cursor.col then lineLen else b.cursor.col
      else b.cursor.col
    ({ b with lines := newLines, cursor := ⟨newLine, newCol⟩, modified := true }, true)

/-- `Buffer.JoinLines`: concatenates the current and next line, separated by
a single space only when both are non-empty; errors with no next line. -/
def joinLines (b : Buffer) : Buffer × Bool :=
  if b.cursor.line < 0 ∨ (b.lines.length : Int) - 1 ≤ b.cursor.line then (b, false)
  else
    let l := b.cursor.line.toNat
    let cur := getIdx b.lines b.cursor.line
    let next := getIdx b.lines (b.cursor.line + 1)
    let separator : Str := if 0 < cur.length ∧ 0 < next.length then [' '] else []
    let lines1 := b.lines.set l (cur ++ separator ++ next)
    let newLines := lines1.take (l + 1) ++ lines1.drop (l + 2)
    ({ b with lines := newLines, modified := true }, true)

/-- `Buffer.SaveAs`: writes the joined lines to `filename`.  The file write
is external; `writeOk` models whether `os.Create`/`WriteString` succeed.  On
success the filename is adopted and the buffer becomes unmodified; every
error path leaves the buffer untouched. -/
def saveAs (b : Buffer) (filename : Str) (writeOk : Bool) : Buffer × Bool :=
  if filename = [] then (b, false)
  else if writeOk then ({ b with filename := filename, modified := false }, true)
  else (b, false)

/-- `Buffer.Save`: `saveAs` to the current filename, erroring if none set. -/
def save (b : Buffer) (writeOk : Bool) : Buffer × Bool :=
  if b.filename = [] then (b, false) else b.saveAs b.filename writeOk

end Buffer

/-- One Buffer mutation, for claims quantifying over all operations.
`save`/`saveAs` carry the external write outcome. -/
inductive BufOp
  | insertChar (ch : Char)
  | deleteChar
  | backspace
  | insertLine
  | insertEmptyLine
  | deleteLine
  | joinLines
  | setCursor (pos : Position)
  | moveCursor (deltaLine deltaCol : Int)
  | save (writeOk : Bool)
  | saveAs (filename : Str) (writeOk : Bool)

/-- Applies one operation: the buffer state after the call plus the success
flag (`setCursor`/`moveCursor` cannot fail). -/
def BufOp.apply : BufOp → Buffer → Buffer × Bool
  | .insertChar ch, b => b.insertChar ch
  | .deleteChar, b => b.deleteChar
  | .backspace, b => b.backspace
  | .insertLine, b => b.insertLine
  | .insertEmptyLine, b => b.insertEmptyLine
  | .deleteLine, b => b.deleteLine
  | .joinLines, b => b.joinLines
  | .setCursor pos, b => (b.setCursor pos, true)
  | .moveCursor dl dc, b => (b.moveCursor dl dc, true)
  | .save ok, b => b.save ok
  | .saveAs f ok, b => b.saveAs f ok

/-- The Buffer cursor invariant: `0 ≤ cursor.line < lineCount` and
`0 ≤ cursor.col ≤ len(lines[cursor.line])`. -/
def cursorInv (b : Buffer) : Prop :=
  0 ≤ b.cursor.line ∧ b.cursor.line < (b.lines.length : Int) ∧
  0 ≤ b.cursor.col ∧ b.cursor.col ≤ ((getIdx b.lines b.cursor.line).length : Int)

instance : DecidablePred cursorInv := fun b => by
  unfold cursorInv; infer_instance

/-! ### List-indexing helper lemmas -/

lemma getIdx_eq (ls : List Str) (i : Int) : getIdx ls i = ls[i.toNat]?.getD [] := by
  simp [getIdx, List.getD_eq_getElem?_getD]

lemma getIdx_set_self (ls : List Str) (n : Nat) (x : Str) (i : Int)
    (hn : n < ls.length) (hi : i.toNat = n) : getIdx (ls.set n x) i = x := by
  rw [getIdx_eq, hi, List.getElem?_set_self hn]
  rfl

lemma getIdx_set_ne (ls : List Str) (n : Nat) (x : Str) (i : Int)
    (h : n ≠ i.toNat) : getIdx (ls.set n x) i = getIdx ls i := by
  rw [getIdx_eq, getIdx_eq, List.getElem?_set_ne h]

lemma getIdx_append_left (xs ys : List Str) (i : Int) (h : i.toNat < xs.length) :
    getIdx (xs ++ ys) i = getIdx xs i := by
  rw [getIdx_eq, getIdx_eq, List.getElem?_append_left h]

lemma getIdx_append_right (xs ys : List Str) (i : Int) (h : xs.length ≤ i.toNat) :
    getIdx (xs ++ ys) i = ys[i.toNat - xs.length]?.getD [] := by
  rw [getIdx_eq, List.getElem?_append_right h]

lemma getIdx_take (ls : List Str) (n : Nat) (i : Int) (h : i.toNat < n) :
    getIdx (ls.take n) i = getIdx ls i := by
  rw [getIdx_eq, getIdx_eq, List.getElem?_take_of_lt h]

lemma getIdx_take_append_left (ls ts : List Str) (k : Nat) (i : Int)
    (h1 : i.toNat < k) (h2 : k ≤ ls.length) :
    getIdx (ls.take k ++ ts) i = getIdx ls i := by
  rw [getIdx_append_left _ _ _ (by simp [List.length_take]; omega), getIdx_take _ _ _ h1]

lemma getIdx_set_take_drop (ls : List Str) (l m : Nat) (x : Str) (i : Int)
    (hi : i.toNat = l) (hl : l + 1 ≤ ls.length) :
    getIdx ((ls.set l x).take (l + 1) ++ (ls.set l x).drop m) i = x := by
  rw [getIdx_take_append_left _ _ _ _ (by omega) (by rw [List.length_set]; omega)]
  exact getIdx_set_self _ _ _ _ (by omega) hi

/-! ### Invariant preservation, one lemma per Buffer operation -/

lemma cursorInv_setCursor (b : Buffer) (pos : Position) (h : cursorInv b) :
    cursorInv (b.setCursor pos) := by
  obtain ⟨h1, h2, h3, h4⟩ := h
  unfold Buffer.setCursor cursorInv
  simp only
  constructor
  · split_ifs <;> omega
  refine ⟨by split_ifs <;> omega, ?_⟩
  constructor
  · split_ifs <;> omega
  · split_ifs <;> omega

lemma cursorInv_moveCursor (b : Buffer) (dl dc : Int) (h : cursorInv b) :
    cursorInv (b.moveCursor dl dc) :=
  cursorInv_setCursor b _ h

lemma cursorInv_insertChar (b : Buffer) (ch : Char) (h : cursorInv b) :
    cursorInv (b.insertChar ch).1 := by
  obtain ⟨h1, h2, h3, h4⟩ := h
  simp only [Buffer.insertChar]
  split_ifs with hc1 hc2
  · exact ⟨h1, h2, h3, h4⟩
  · exact ⟨h1, h2, h3, h4⟩
  · have hln : b.cursor.line.toNat < b.lines.length := by omega
    refine ⟨by dsimp only; omega, ?_, by dsimp only; omega, ?_⟩
    · dsimp only
      rw [List.length_set]
      omega
    · dsimp only
      rw [getIdx_set_self _ _ _ _ hln rfl]
      simp only [List.length_append, List.length_take, List.length_drop, List.length_cons,
        List.length_nil]
      omega

lemma cursorInv_deleteChar (b : Buffer) (h : cursorInv b) :
    cursorInv (b.deleteChar).1 := by
  obtain ⟨h1, h2, h3, h4⟩ := h
  simp only [Buffer.deleteChar]
  split_ifs with hc1 hc2 hc3
  · exact ⟨h1, h2, h3, h4⟩
  · exact ⟨h1, h2, h3, h4⟩
  · exact ⟨h1, h2, h3, h4⟩
  · have hln : b.cursor.line.toNat < b.lines.length := by omega
    refine ⟨by dsimp only; omega, ?_, by dsimp only; omega, ?_⟩
    · dsimp only
      rw [List.length_set]
      omega
    · dsimp only
      rw [getIdx_set_self _ _ _ _ hln rfl]
      simp only [List.length_append, List.length_take, List.length_drop]
      omega

lemma cursorInv_backspace (b : Buffer) (h : cursorInv b) :
    cursorInv (b.backspace).1 := by
  obtain ⟨h1, h2, h3, h4⟩ := h
  simp only [Buffer.backspace]
  split_ifs with hc1 hc2 hc3
  · exact ⟨h1, h2, h3, h4⟩
  · exact ⟨h1, h2, h3, h4⟩
  · -- column 0, line > 0: merge with the previous line
    have hl1 : 1 ≤ b.cursor.line := by omega
    have hln : b.cursor.line.toNat < b.lines.length := by omega
    have key : getIdx ((b.lines.set (b.cursor.line.toNat - 1)
          (getIdx b.lines (b.cursor.line - 1) ++ getIdx b.lines b.cursor.line)).take
            b.cursor.line.toNat ++
          (b.lines.set (b.cursor.line.toNat - 1)
            (getIdx b.lines (b.cursor.line - 1) ++ getIdx b.lines b.cursor.line)).drop
            (b.cursor.line.toNat + 1)) (b.cursor.line - 1) =
        getIdx b.lines (b.cursor.line - 1) ++ getIdx b.lines b.cursor.line := by
      rw [getIdx_take_append_left _ _ _ _ (by omega) (by rw [List.length_set]; omega)]
      exact getIdx_set_self _ _ _ _ (by omega) (by omega)
    refine ⟨by dsimp only; omega, ?_, by dsimp only; omega, ?_⟩
    · dsimp only
      simp only [List.length_append, List.length_take, List.length_drop, List.length_set]
      omega
    · dsimp only
      rw [key]
      simp only [List.length_append]
      omega
  · -- column > 0: delete the character before the cursor
    have hln : b.cursor.line.toNat < b.lines.length := by omega
    refine ⟨by dsimp only; omega, ?_, by dsimp only; omega, ?_⟩
    · dsimp only
      rw [List.length_set]
      omega
    · dsimp only
      rw [getIdx_set_self _ _ _ _ hln rfl]
      simp only [List.length_append, List.length_take, List.length_drop]
      omega

lemma cursorInv_insertLine (b : Buffer) (h : cursorInv b) :
    cursorInv (b.insertLine).1 := by
  obtain ⟨h1, h2, h3, h4⟩ := h
  simp only [Buffer.insertLine]
  split_ifs with hc1 hc2
  · exact ⟨h1, h2, h3, h4⟩
  · exact ⟨h1, h2, h3, h4⟩
  · refine ⟨by dsimp only; omega, ?_, by dsimp only; omega, by dsimp only; omega⟩
    dsimp only
    simp only [List.length_append, List.length_take, List.length_drop, List.length_set,
      List.length_cons, List.length_nil]
    omega

lemma cursorInv_insertEmptyLine (b : Buffer) (h : cursorInv b) :
    cursorInv (b.insertEmptyLine).1 := by
  obtain ⟨h1, h2, h3, h4⟩ := h
  simp only [Buffer.insertEmptyLine]
  split_ifs with hc1
  · exact ⟨h1, h2, h3, h4⟩
  · refine ⟨by dsimp only; omega, ?_, by dsimp only; omega, by dsimp only; omega⟩
    dsimp only
    simp only [List.length_append, List.length_take, List.length_drop,
      List.length_cons, List.length_nil]
    omega

lemma cursorInv_deleteLine (b : Buffer) (h : cursorInv b) :
    cursorInv (b.deleteLine).1 := by
  obtain ⟨h1, h2, h3, h4⟩ := h
  have hset : (b.lines.set 0 ([] : Str)).length = b.lines.length :=
    List.length_set b.lines 0 []
  have hlen : (b.lines.take b.cursor.line.toNat ++
      b.lines.drop (b.cursor.line.toNat + 1)).length = b.lines.length - 1 := by
    simp only [List.length_append, List.length_take, List.length_drop]
    omega
  simp only [Buffer.deleteLine]
  split_ifs <;> refine ⟨?_, ?_, ?_, ?_⟩ <;> dsimp only <;> omega

lemma cursorInv_joinLines (b : Buffer) (h : cursorInv b) :
    cursorInv (b.joinLines).1 := by
  obtain ⟨h1, h2, h3, h4⟩ := h
  simp only [Buffer.joinLines]
  split_ifs with hc1 hsep
  · exact ⟨h1, h2, h3, h4⟩
  · refine ⟨by dsimp only; omega, ?_, by dsimp only; omega, ?_⟩
    · dsimp only
      simp only [List.length_append, List.length_take, List.length_drop, List.length_set]
      omega
    · dsimp only
      rw [getIdx_set_take_drop _ _ _ _ _ rfl (by omega)]
      simp only [List.length_append]
      omega
  · refine ⟨by dsimp only; omega, ?_, by dsimp only; omega, ?_⟩
    · dsimp only
      simp only [List.length_append, List.length_take, List.length_drop, List.length_set]
      omega
    · dsimp only
      rw [getIdx_set_take_drop _ _ _ _ _ rfl (by omega)]
      simp only [List.length_append]
      omega

lemma cursorInv_saveAs (b : Buffer) (f : Str) (ok : Bool) (h : cursorInv b) :
    cursorInv (b.saveAs f ok).1 := by
  simp only [Buffer.saveAs]
  split_ifs <;> exact h

lemma cursorInv_save (b : Buffer) (ok : Bool) (h : cursorInv b) :
    cursorInv (b.save ok).1 := by
  simp only [Buffer.save]
  split_ifs with hc
  · exact h
  · exact cursorInv_saveAs b _ ok h

/-! ### Claims C1 and C2 -/

/-- Claim C1: for every Buffer that satisfies the cursor invariant, after any
single Buffer operation (insertChar, deleteChar, backspace, insertLine,
insertEmptyLine, deleteLine, joinLines, setCursor, moveCursor — and likewise
save/saveAs) the invariant still holds:
`0 ≤ cursor.line < lineCount` and `0 ≤ cursor.col ≤ len(lines[cursor.line])`. -/
theorem C1_cursor_invariant_preserved (op : BufOp) (b : Buffer) (h : cursorInv b) :
    cursorInv (op.apply b).1 := by
  cases op with
  | insertChar ch => exact cursorInv_insertChar b ch h
  | deleteChar => exact cursorInv_deleteChar b h
  | backspace => exact cursorInv_backspace b h
  | insertLine => exact cursorInv_insertLine b h
  | insertEmptyLine => exact cursorInv_insertEmptyLine b h
  | deleteLine => exact cursorInv_deleteLine b h
  | joinLines => exact cursorInv_joinLines b h
  | setCursor pos => exact cursorInv_setCursor b pos h
  | moveCursor dl dc => exact cursorInv_moveCursor b dl dc h
  | save ok => exact cursorInv_save b ok h
  | saveAs f ok => exact cursorInv_saveAs b f ok h

/-- Witness for C1: the invariant holds before and after a concrete
line-merging backspace. -/
theorem C1_cursor_invariant_preserved_witness :
    cursorInv ⟨[str "hello", str "world"], ⟨1, 0⟩, [], false⟩ ∧
    cursorInv ((BufOp.backspace).apply ⟨[str "hello", str "world"], ⟨1, 0⟩, [], false⟩).1 :=
  ⟨by decide, C1_cursor_invariant_preserved .backspace _ (by decide)⟩

/-- Claim C2: every Buffer operation keeps `lineCount ≥ 1` (starting from any
buffer with at least one line, which both New and NewFromFile guarantee); in
particular deleteLine on a buffer with exactly one line clears that line's
text to the empty string instead of removing the line (and succeeds). -/
theorem C2_line_count_at_least_one (op : BufOp) (b : Buffer) :
    (1 ≤ b.lines.length → 1 ≤ ((op.apply b).1).lines.length) ∧
    (b.lines.length = 1 → (b.deleteLine).1.lines = [[]] ∧ (b.deleteLine).2 = true) := by
  constructor
  · intro hb
    cases op with
    | insertChar ch =>
      simp only [BufOp.apply, Buffer.insertChar]
      split_ifs <;> dsimp only <;> (try simp only [List.length_set]) <;> omega
    | deleteChar =>
      simp only [BufOp.apply, Buffer.deleteChar]
      split_ifs <;> dsimp only <;> (try simp only [List.length_set]) <;> omega
    | backspace =>
      simp only [BufOp.apply, Buffer.backspace]
      split_ifs <;> dsimp only <;>
        (try simp only [List.length_append, List.length_take, List.length_drop,
          List.length_set]) <;> omega
    | insertLine =>
      simp only [BufOp.apply, Buffer.insertLine]
      split_ifs <;> dsimp only <;>
        (try simp only [List.length_append, List.length_take, List.length_drop,
          List.length_set, List.length_cons, List.length_nil]) <;> omega
    | insertEmptyLine =>
      simp only [BufOp.apply, Buffer.insertEmptyLine]
      split_ifs <;> dsimp only <;>
        (try simp only [List.length_append, List.length_take, List.length_drop,
          List.length_cons, List.length_nil]) <;> omega
    | deleteLine =>
      simp only [BufOp.apply, Buffer.deleteLine]
      split_ifs <;> dsimp only <;>
        (try simp only [List.length_append, List.length_take, List.length_drop,
          List.length_set]) <;> omega
    | joinLines =>
      simp only [BufOp.apply, Buffer.joinLines]
      split_ifs <;> dsimp only <;>
        (try simp only [List.length_append, List.length_take, List.length_drop,
          List.length_set]) <;> omega
    | setCursor pos =>
      simp only [BufOp.apply, Buffer.setCursor]
      omega
    | moveCursor dl dc =>
      simp only [BufOp.apply, Buffer.moveCursor, Buffer.setCursor]
      omega
    | save ok =>
      simp only [BufOp.apply, Buffer.save, Buffer.saveAs]
      split_ifs <;> dsimp only <;> omega
    | saveAs f ok =>
      simp only [BufOp.apply, Buffer.saveAs]
      split_ifs <;> dsimp only <;> omega
  · intro hb
    obtain ⟨x, hx⟩ : ∃ x, b.lines = [x] := by
      cases hl : b.lines with
      | nil => rw [hl] at hb; simp at hb
      | cons y t =>
        cases t with
        | nil => exact ⟨y, rfl⟩
        | cons z t2 => rw [hl] at hb; simp at hb
    simp [Buffer.deleteLine, hx]

/-- Witness for C2: deleting the sole line of a concrete one-line buffer
keeps one line and clears it. -/
theorem C2_line_count_at_least_one_witness :
    (1 ≤ ((BufOp.deleteLine).apply ⟨[str "abc"], ⟨0, 1⟩, [], true⟩).1.lines.length) ∧
    ((⟨[str "abc"], ⟨0, 1⟩, [], true⟩ : Buffer).deleteLine).1.lines = [[]] :=
  ⟨(C2_line_count_at_least_one .deleteLine _).1 (by decide),
   ((C2_line_count_at_least_one .deleteLine _).2 (by decide)).1⟩

/-! ### Key events (`internal/ui/screen.go`) -/

/-- `ui.KeyAction`. -/
inductive KeyAction
  | null | quit | char | backspace | delete | enter | tab | escape
  | up | down | left | right | home | keyEnd | pageUp | pageDown
  | ctrlC | ctrlD | ctrlS | ctrlQ | ctrlZ | resize | ctrlSpace
deriving DecidableEq, Repr

/-- `ui.KeyEvent` (the fields the mode handlers read). -/
structure KeyEvent where
  action : KeyAction
  rune : Char
deriving DecidableEq, Repr

/-! ### Command subsystem (`internal/commands`) -/

/-- `commands.CommandResult`. -/
structure CommandResult where
  success : Bool
  message : Str
  exitEditor : Bool
  switchMode : Bool
deriving DecidableEq, Repr

/-- An LSP completion option (`modes.CompletionItem`). -/
structure CompletionItem where
  label : Str
  detail : Str
  insertText : Str
  kind : Str
deriving DecidableEq, Repr

/-- The effects outside the editing core, passed explicitly: whether a file
write succeeds (`os.Create`/`WriteString`), whether the global AI manager has
been initialised and — when it has — the outcome of the provider HTTP call
(`aiExec`, indexed per AI command), `os.Stat` existence checks, and the LSP
completion response (`Option.none` models an error or empty reply). -/
structure Env where
  writeOk : Bool
  aiSet : Bool
  aiExec : Nat → List Str → Buffer → CommandResult × Buffer
  fileExists : Str → Bool
  lspCompletion : Buffer → Option (List CompletionItem)

/-- A default environment: writes succeed, no AI manager, no files, no LSP —
the state of a freshly started process before `SetAIManager` etc. -/
def defaultEnv : Env where
  writeOk := true
  aiSet := false
  aiExec := fun _ _ b => (⟨false, [], false, false⟩, b)
  fileExists := fun _ => false
  lspCompletion := fun _ => Option.none

/-- `commands.Command`: canonical name, aliases, execution contract and help
text.  `exec` receives the environment, the parsed arguments and the buffer,
returning the result and the (possibly mutated) buffer. -/
structure Command where
  name : Str
  aliases : List Str
  exec : Env → List Str → Buffer → CommandResult × Buffer
  help : Str

/-- `WriteCommand` (`:w`): with an argument saves-as to it, otherwise saves to
the buffer's filename, failing if none is set.  (The Go failure message
appends the underlying I/O error text, which is external; the embedded
message keeps the fixed prefix.) -/
def writeCommand : Command where
  name := str "write"
  aliases := [str "w"]
  help := str ":w [filename] - Write buffer to file"
  exec := fun env args buf =>
    match args with
    | a :: _ =>
      let (buf1, ok) := buf.saveAs a env.writeOk
      if ok then
        ({ success := true, message := str "File written: " ++ a,
           exitEditor := false, switchMode := false }, buf1)
      else
        ({ success := false, message := str "Error writing file: ",
           exitEditor := false, switchMode := false }, buf1)
    | [] =>
      let filename := buf.filename
      if filename = [] then
        ({ success := false, message := str "No file name specified",
           exitEditor := false, switchMode := false }, buf)
      else
        let (buf1, ok) := buf.save env.writeOk
        if ok then
          ({ success := true, message := str "File written: " ++ filename,
             exitEditor := false, switchMode := false }, buf1)
        else
          ({ success := false, message := str "Error writing file: ",
             exitEditor := false, switchMode := false }, buf1)

/-- `QuitCommand` (`:q`): fails with a force-quit/save-and-quit hint when the
buffer is modified, otherwise succeeds and requests exit. -/
def quitCommand : Command where
  name := str "quit"
  aliases := [str "q"]
  help := str ":q - Quit editor (fails if unsaved changes)"
  exec := fun _ _ buf =>
    if buf.modified then
      ({ success := false,
         message := str "Buffer has unsaved changes. Use :q! to force quit or :wq to save and quit",
         exitEditor := false, switchMode := false }, buf)
    else
      ({ success := true, message := str "Goodbye!",
         exitEditor := true, switchMode := false }, buf)

/-- `ForceQuitCommand` (`:q!`): always succeeds and requests exit. -/
def forceQuitCommand : Command where
  name := str "quit!"
  aliases := [str "q!"]
  help := str ":q! - Force quit editor (discards unsaved changes)"
  exec := fun _ _ buf =>
    ({ success := true, message := str "Goodbye!",
       exitEditor := true, switchMode := false }, buf)

/-- `WriteQuitCommand` (`:wq`, aliases `x`/`exit`): runs write; on its failure
returns that result verbatim, otherwise succeeds and requests exit. -/
def writeQuitCommand : Command where
  name := str "wq"
  aliases := [str "x", str "exit"]
  help := str ":wq [filename] - Write buffer and quit editor"
  exec := fun env args buf =>
    let (writeResult, buf1) := writeCommand.exec env args buf
    if !writeResult.success then (writeResult, buf1)
    else
      ({ success := true, message := str "File written and editor closed",
         exitEditor := true, switchMode := false }, buf1)

/-- `EditCommand` (`:e`): the actual reload/load is unimplemented in the
source; every path returns a failure message. -/
def editCommand : Command where
  name := str "edit"
  aliases := [str "e"]
  help := str ":e [filename] - Edit file (loads new file or reloads current)"
  exec := fun env args buf =>
    match args with
    | [] =>
      if buf.filename = [] then
        ({ success := false, message := str "No file to reload",
           exitEditor := false, switchMode := false }, buf)
      else if buf.modified then
        ({ success := false,
           message := str "Buffer has unsaved changes. Use :e! to force reload",
           exitEditor := false, switchMode := false }, buf)
      else
        ({ success := false, message := str "File reloading not yet implemented",
           exitEditor := false, switchMode := false }, buf)
    | a :: _ =>
      if buf.modified then
        ({ success := false,
           message := str "Buffer has unsaved changes. Save first or use :e! to discard",
           exitEditor := false, switchMode := false }, buf)
      else if !(env.fileExists a) then
        ({ success := false, message := str "File not found: " ++ a,
           exitEditor := false, switchMode := false }, buf)
      else
        ({ success := false, message := str "File loading not yet implemented",
           exitEditor := false, switchMode := false }, buf)

/-- `NewCommand` (`:new`): buffer replacement is unimplemented in the source. -/
def newCommand : Command where
  name := str "new"
  aliases := [str "enew"]
  help := str ":new - Create new empty buffer"
  exec := fun _ _ buf =>
    if buf.modified then
      ({ success := false, message := str "Buffer has unsaved changes. Save first",
         exitEditor := false, switchMode := false }, buf)
    else
      ({ success := false, message := str "New file creation not yet implemented",
         exitEditor := false, switchMode := false }, buf)

/-- The five AI commands (`ai_commands.go`).  Each first checks the global AI
manager for nil, failing with "AI manager not initialized"; with a manager
configured the behaviour is an HTTP interaction with the provider, which is
external to the core (spec §1) and modelled by `env.aiExec idx`. -/
def aiCommand (idx : Nat) (nm : String) (als : List String) (hlp : String) : Command where
  name := str nm
  aliases := als.map str
  help := str hlp
  exec := fun env args buf =>
    if !env.aiSet then
      ({ success := false, message := str "AI manager not initialized",
         exitEditor := false, switchMode := true }, buf)
    else env.aiExec idx args buf

def aiCompleteCommand : Command :=
  aiCommand 0 "aicomplete" ["aic"] "Complete code at cursor position using AI"

def aiExplainCommand : Command :=
  aiCommand 1 "aiexplain" ["aie"] "Explain code at cursor or provided as argument"

def aiRefactorCommand : Command :=
  aiCommand 2 "airefactor" ["air"] "Get AI suggestions for refactoring code"

def aiChatCommand : Command :=
  aiCommand 3 "ai" [] "Ask AI a general question about your code"

def aiProviderCommand : Command :=
  aiCommand 4 "aiprovider" ["aip"] "List or set active AI provider"

/-- `commands.CommandRegistry`: a map from every name and alias to its
command. -/
def Registry := Str → Option Command

/-- `CommandRegistry.RegisterCommand`: inserts the command under its
canonical name and every alias (overwriting those keys only). -/
def registerCommand (reg : Registry) (cmd : Command) : Registry :=
  fun k => if k = cmd.name ∨ k ∈ cmd.aliases then some cmd else reg k

def emptyRegistry : Registry := fun _ => Option.none

/-- `commands.NewCommandRegistry`: the built-in vim commands followed by the
AI commands, in registration order (later registrations shadow earlier keys). -/
def newCommandRegistry : Registry :=
  [writeCommand, quitCommand, forceQuitCommand, writeQuitCommand, editCommand,
   newCommand, aiCompleteCommand, aiExplainCommand, aiRefactorCommand,
   aiChatCommand, aiProviderCommand].foldl registerCommand emptyRegistry

/-- `strings.TrimSpace` (relative to `goIsSpace`). -/
def trimSpace (s : Str) : Str :=
  ((s.dropWhile goIsSpace).reverse.dropWhile goIsSpace).reverse

/-- `strings.Fields`: splits around runs of white space (accumulator holds
the current field reversed). -/
def fieldsGo : Str → Str → List Str
  | [], acc => if acc.isEmpty then [] else [acc.reverse]
  | c :: rest, acc =>
    if goIsSpace c then
      if acc.isEmpty then fieldsGo rest [] else acc.reverse :: fieldsGo rest []
    else fieldsGo rest (c :: acc)

def fields (s : Str) : List Str := fieldsGo s []

/-- `CommandParser.ParseCommand`: trims whitespace, errors on an empty line
(both Go error paths carry the message "empty command", modelled as
`Option.none`), otherwise splits into name and argument tokens. -/
def parseCommand (cmdLine : Str) : Option (Str × List Str) :=
  let cmdLine := trimSpace cmdLine
  if cmdLine = [] then Option.none
  else
    match fields cmdLine with
    | [] => Option.none
    | nm :: args => some (nm, args)

/-- `CommandExecutor.Execute`: parse (parse errors report "Error: empty
command" and switch back to Normal), look up (unknown names likewise), invoke
the command, and force `switchMode := true` whenever the result does not
request `exitEditor`. -/
def executorExecute (reg : Registry) (env : Env) (cmdLine : Str) (buf : Buffer) :
    CommandResult × Buffer :=
  match parseCommand cmdLine with
  | Option.none =>
    ({ success := false, message := str "Error: empty command",
       exitEditor := false, switchMode := true }, buf)
  | some (cmdName, args) =>
    match reg cmdName with
    | Option.none =>
      ({ success := false, message := str "Unknown command: " ++ cmdName,
         exitEditor := false, switchMode := true }, buf)
    | some cmd =>
      let (result, buf1) := cmd.exec env args buf
      let result :=
        if !result.exitEditor then { result with switchMode := true } else result
      (result, buf1)

/-! ### Mode state machine (`internal/modes`) -/

/-- `modes.ModeType`. -/
inductive ModeType
  | normal | insert | visual | command
deriving DecidableEq, Repr

/-- `modes.ModeResult`. -/
structure ModeResult where
  switchToMode : Option ModeType
  handled : Bool
  exitEditor : Bool
deriving DecidableEq, Repr

def handledResult : ModeResult := ⟨Option.none, true, false⟩

def notHandledResult : ModeResult := ⟨Option.none, false, false⟩

def switchResult (t : ModeType) : ModeResult := ⟨some t, true, false⟩

/-- `NormalMode` private state: the `lastCommand` rune (declared but unused
in the source) and the pending `g` prefix flag. -/
structure NormalModeState where
  lastCommand : Char
  gPref : Bool
deriving DecidableEq, Repr

/-- `InsertMode` private state: whether an LSP manager has been attached
(`lspManager != nil`) and the completion popup state. -/
structure InsertModeState where
  lspSet : Bool
  showingCompletion : Bool
  completions : List CompletionItem
  selectedIndex : Int
deriving DecidableEq, Repr

/-- `VisualMode` private state: the selection anchor. -/
structure VisualModeState where
  startPos : Position
deriving DecidableEq, Repr

/-- `CommandMode` private state: the in-progress command line and the last
result message (its `CommandExecutor` always holds the built-in registry). -/
structure CommandModeState where
  commandLine : Str
  message : Str
deriving DecidableEq, Repr

/-- A `modes.Mode` implementation together with its private state. -/
inductive Mode
  | normalM (s : NormalModeState)
  | insertM (s : InsertModeState)
  | visualM (s : VisualModeState)
  | commandM (s : CommandModeState)
deriving DecidableEq, Repr

def newNormalMode : Mode := .normalM ⟨Char.ofNat 0, false⟩

def newInsertMode : Mode := .insertM ⟨false, false, [], 0⟩

def newVisualMode : Mode := .visualM ⟨⟨0, 0⟩⟩

def newCommandMode : Mode := .commandM ⟨[], []⟩

/-- `Mode.Type()`. -/
def Mode.type : Mode → ModeType
  | .normalM _ => .normal
  | .insertM _ => .insert
  | .visualM _ => .visual
  | .commandM _ => .command

/-- `Buffer.Line(i)` with the error discarded (it yields "") as the mode
handlers do. -/
def Buffer.lineAt (b : Buffer) (i : Int) : Str :=
  if 0 ≤ i ∧ i < (b.lines.length : Int) then getIdx b.lines i else []

/-- A Go `for col < len(runes) && p(runes[col]) { col++ }` scan. -/
def scanWhile (p : Char → Bool) (runes : Str) (col : Nat) : Nat :=
  if h : col < runes.length then
    if p (runes.get ⟨col, h⟩) then scanWhile p runes (col + 1) else col
  else col
termination_by runes.length - col

/-- A Go `for col >= 0 && p(runes[col]) { col-- }` scan (the source only
enters it with `col < len(runes)`, so the added upper-bound check never
fires on the guarded paths). -/
def scanBack (p : Char → Bool) (runes : Str) (col : Int) : Int :=
  if h : 0 ≤ col ∧ col.toNat < runes.length then
    if p (runes.get ⟨col.toNat, h.2⟩) then scanBack p runes (col - 1) else col
  else col
termination_by (col + 1).toNat
decreasing_by omega

/-! #### Normal mode (`normal.go`) -/

def normalMoveLeft (buf : Buffer) : Buffer × ModeResult :=
  (buf.moveCursor 0 (-1), handledResult)

def normalMoveDown (buf : Buffer) : Buffer × ModeResult :=
  (buf.moveCursor 1 0, handledResult)

def normalMoveUp (buf : Buffer) : Buffer × ModeResult :=
  (buf.moveCursor (-1) 0, handledResult)

/-- In normal mode the cursor does not move past the last character. -/
def normalMoveRight (buf : Buffer) : Buffer × ModeResult :=
  let cursor := buf.cursor
  let lineLen := buf.currentLine.length
  if cursor.col < (lineLen : Int) - 1 ∨ lineLen = 0 then
    (buf.moveCursor 0 1, handledResult)
  else (buf, handledResult)

def normalMoveToLineStart (buf : Buffer) : Buffer × ModeResult :=
  (buf.setCursor ⟨buf.cursor.line, 0⟩, handledResult)

def normalMoveToLineEnd (buf : Buffer) : Buffer × ModeResult :=
  let lineLen : Int := (buf.currentLine.length : Int)
  let endCol := if lineLen - 1 < 0 then 0 else lineLen - 1
  (buf.setCursor ⟨buf.cursor.line, endCol⟩, handledResult)

/-- The `range`-loop of `moveToFirstNonWhitespace`: index of the first
non-blank character, if any (`col` stays 0 when the loop never breaks). -/
def firstNonWhiteAux : Str → Nat → Option Nat
  | [], _ => Option.none
  | c :: rest, i => if !goIsSpace c then some i else firstNonWhiteAux rest (i + 1)

def normalMoveToFirstNonWhitespace (buf : Buffer) : Buffer × ModeResult :=
  let col := (firstNonWhiteAux buf.currentLine 0).getD 0
  (buf.setCursor ⟨buf.cursor.line, (col : Int)⟩, handledResult)

/-- `NormalMode.moveWordForward`: skip the current word, then spaces; wrap to
the start of the next line when the scan runs off the end (and one exists). -/
def normalMoveWordForward (buf : Buffer) : Buffer × ModeResult :=
  let cursor := buf.cursor
  let line := buf.currentLine
  if (line.length : Int) ≤ cursor.col then
    if cursor.line < (buf.lineCount : Int) - 1 then
      (buf.setCursor ⟨cursor.line + 1, 0⟩, handledResult)
    else (buf, handledResult)
  else
    let runes := line
    let col1 := scanWhile (fun ch => !goIsSpace ch) runes cursor.col.toNat
    let col2 := scanWhile goIsSpace runes col1
    if runes.length ≤ col2 ∧ cursor.line < (buf.lineCount : Int) - 1 then
      (buf.setCursor ⟨cursor.line + 1, 0⟩, handledResult)
    else
      (buf.setCursor ⟨cursor.line, (col2 : Int)⟩, handledResult)

/-- `NormalMode.moveWordBackward`. -/
def normalMoveWordBackward (buf : Buffer) : Buffer × ModeResult :=
  let cursor := buf.cursor
  if cursor.col ≤ 0 then
    if 0 < cursor.line then
      let prevLine := buf.lineAt (cursor.line - 1)
      let endCol : Int :=
        if (prevLine.length : Int) - 1 < 0 then 0 else (prevLine.length : Int) - 1
      (buf.setCursor ⟨cursor.line - 1, endCol⟩, handledResult)
    else (buf, handledResult)
  else
    let runes := buf.currentLine
    let col1 := scanBack goIsSpace runes (cursor.col - 1)
    let col2 := scanBack (fun ch => !goIsSpace ch) runes col1
    let col3 := col2 + 1
    let col4 := if col3 < 0 then 0 else col3
    (buf.setCursor ⟨cursor.line, col4⟩, handledResult)

/-- `NormalMode.moveToWordEnd`. -/
def normalMoveToWordEnd (buf : Buffer) : Buffer × ModeResult :=
  let cursor := buf.cursor
  let runes := buf.currentLine
  if (runes.length : Int) - 1 ≤ cursor.col then
    if cursor.line < (buf.lineCount : Int) - 1 then
      let nextRunes := buf.lineAt (cursor.line + 1)
      let col1 := scanWhile goIsSpace nextRunes 0
      let col2 := scanWhile (fun ch => !goIsSpace ch) nextRunes col1
      let col3 := if 0 < col2 then col2 - 1 else col2
      (buf.setCursor ⟨cursor.line + 1, (col3 : Int)⟩, handledResult)
    else (buf, handledResult)
  else
    let col1 := scanWhile goIsSpace runes (cursor.col + 1).toNat
    let col2 := scanWhile (fun ch => !goIsSpace ch) runes col1
    let col3 := if 0 < col2 then col2 - 1 else col2
    (buf.setCursor ⟨cursor.line, (col3 : Int)⟩, handledResult)

def normalOpenLineBelow (buf : Buffer) : Buffer × ModeResult :=
  let lineLen := buf.currentLine.length
  let buf1 := buf.setCursor ⟨buf.cursor.line, (lineLen : Int)⟩
  ((buf1.insertLine).1, handledResult)

def normalOpenLineAbove (buf : Buffer) : Buffer × ModeResult :=
  let buf1 := buf.setCursor ⟨buf.cursor.line, 0⟩
  ((buf1.insertEmptyLine).1, handledResult)

def normalDeleteChar (buf : Buffer) : Buffer × ModeResult :=
  ((buf.deleteChar).1, handledResult)

def normalDeleteCharBefore (buf : Buffer) : Buffer × ModeResult :=
  ((buf.backspace).1, handledResult)

/-- `NormalMode.handleCharacter`.  The `gd`/`gh`/`gr` LSP submissions go
through `executeLSPCommand`, which the source leaves as a stub returning
`Handled: true`. -/
def normalHandleCharacter (s : NormalModeState) (ch : Char) (buf : Buffer) :
    NormalModeState × Buffer × ModeResult :=
  if s.gPref then
    let s1 := { s with gPref := false }
    match ch with
    | 'd' => (s1, buf, handledResult)
    | 'h' => (s1, buf, handledResult)
    | 'r' => (s1, buf, handledResult)
    | 'g' => (s1, buf.setCursor ⟨0, 0⟩, handledResult)
    | _ => (s1, buf, handledResult)
  else
    match ch with
    | 'h' => let (b, r) := normalMoveLeft buf; (s, b, r)
    | 'j' => let (b, r) := normalMoveDown buf; (s, b, r)
    | 'k' => let (b, r) := normalMoveUp buf; (s, b, r)
    | 'l' => let (b, r) := normalMoveRight buf; (s, b, r)
    | '0' => let (b, r) := normalMoveToLineStart buf; (s, b, r)
    | '$' => let (b, r) := normalMoveToLineEnd buf; (s, b, r)
    | '^' => let (b, r) := normalMoveToFirstNonWhitespace buf; (s, b, r)
    | 'w' => let (b, r) := normalMoveWordForward buf; (s, b, r)
    | 'b' => let (b, r) := normalMoveWordBackward buf; (s, b, r)
    | 'e' => let (b, r) := normalMoveToWordEnd buf; (s, b, r)
    | 'i' => (s, buf, switchResult .insert)
    | 'a' => let (b, _) := normalMoveRight buf; (s, b, switchResult .insert)
    | 'I' => let (b, _) := normalMoveToFirstNonWhitespace buf; (s, b, switchResult .insert)
    | 'A' => let (b, _) := normalMoveToLineEnd buf; (s, b, switchResult .insert)
    | 'o' => let (b, _) := normalOpenLineBelow buf; (s, b, switchResult .insert)
    | 'O' => let (b, _) := normalOpenLineAbove buf; (s, b, switchResult .insert)
    | 'v' => (s, buf, switchResult .visual)
    | ':' => (s, buf, switchResult .command)
    | 'x' => let (b, r) := normalDeleteChar buf; (s, b, r)
    | 'X' => let (b, r) := normalDeleteCharBefore buf; (s, b, r)
    | 'd' => (s, buf, handledResult)
    | 'y' => (s, buf, handledResult)
    | 'p' => (s, buf, handledResult)
    | 'u' => (s, buf, handledResult)
    | 'g' => ({ s with gPref := true }, buf, handledResult)
    | _ => (s, buf, notHandledResult)

/-- `NormalMode.HandleInput`. -/
def normalHandleInput (s : NormalModeState) (ev : KeyEvent) (buf : Buffer) :
    NormalModeState × Buffer × ModeResult :=
  match ev.action with
  | .char => normalHandleCharacter s ev.rune buf
  | .up => let (b, r) := normalMoveUp buf; (s, b, r)
  | .down => let (b, r) := normalMoveDown buf; (s, b, r)
  | .left => let (b, r) := normalMoveLeft buf; (s, b, r)
  | .right => let (b, r) := normalMoveRight buf; (s, b, r)
  | .home => let (b, r) := normalMoveToLineStart buf; (s, b, r)
  | .keyEnd => let (b, r) := normalMoveToLineEnd buf; (s, b, r)
  | .ctrlC => (s, buf, ⟨Option.none, true, true⟩)
  | _ => (s, buf, notHandledResult)

/-- `NormalMode.OnEnter`: clamp the cursor onto the last character of a
non-empty line. -/
def normalOnEnter (buf : Buffer) : Buffer :=
  let cursor := buf.cursor
  let lineLen := buf.currentLine.length
  if (lineLen : Int) ≤ cursor.col ∧ 0 < lineLen then
    buf.setCursor ⟨cursor.line, (lineLen : Int) - 1⟩
  else buf

/-! #### Insert mode (`insert.go`) -/

/-- `modes.isIdentifierChar`. -/
def isIdentifierChar (r : Char) : Bool :=
  (97 ≤ r.toNat && r.toNat ≤ 122) || (65 ≤ r.toNat && r.toNat ≤ 90) ||
  (48 ≤ r.toNat && r.toNat ≤ 57) || r = '_'

def insertHideCompletion (s : InsertModeState) : InsertModeState :=
  { s with showingCompletion := false, completions := [], selectedIndex := 0 }

/-- `InsertMode.triggerCompletion`: skip unnamed buffers; an LSP error or an
empty reply hides the popup; otherwise the items are converted (insert text
defaulting to the label) and shown with the first selected. -/
def insertTriggerCompletion (env : Env) (s : InsertModeState) (buf : Buffer) :
    InsertModeState :=
  if buf.filename = [] then s
  else
    match env.lspCompletion buf with
    | Option.none => insertHideCompletion s
    | some comps =>
      if comps.isEmpty then insertHideCompletion s
      else
        let items := comps.map fun c =>
          if c.insertText = [] then { c with insertText := c.label } else c
        if 0 < items.length then
          { s with completions := items, selectedIndex := 0, showingCompletion := true }
        else s

/-- The word-start scan of `applyCompletion`
(`for wordStart > 0 && isIdentifierChar(line[wordStart-1])`). -/
def wordStartAux (line : Str) : Nat → Nat
  | 0 => 0
  | n + 1 =>
    if isIdentifierChar (line.getD n (Char.ofNat 0)) then wordStartAux line n
    else n + 1

def iterBackspace (buf : Buffer) : Nat → Buffer
  | 0 => buf
  | n + 1 => iterBackspace (buf.backspace).1 n

def iterInsert (buf : Buffer) (cs : Str) : Buffer :=
  cs.foldl (fun b c => (b.insertChar c).1) buf

/-- `InsertMode.applyCompletion`: backspace over the partial identifier
before the cursor, then insert the completion text. -/
def insertApplyCompletion (buf : Buffer) (item : CompletionItem) : Buffer :=
  if item.insertText = [] then buf
  else
    let cursor := buf.cursor
    let line := buf.currentLine
    let wordStart := wordStartAux line cursor.col.toNat
    let buf1 := iterBackspace buf (cursor.col.toNat - wordStart)
    iterInsert buf1 item.insertText

/-- The main `switch` of `InsertMode.HandleInput` (reached when no completion
popup is showing, or when the popup does not consume the key). -/
def insertHandleInputMain (env : Env) (s : InsertModeState) (ev : KeyEvent)
    (buf : Buffer) : InsertModeState × Buffer × ModeResult :=
  match ev.action with
  | .escape => (s, buf, switchResult .normal)
  | .char =>
    let buf1 := (buf.insertChar ev.rune).1
    let s1 :=
      if s.lspSet ∧ (ev.rune = '.' ∨ ev.rune = ':') then
        insertTriggerCompletion env s buf1
      else s
    (s1, buf1, handledResult)
  | .backspace => (s, (buf.backspace).1, handledResult)
  | .delete => (s, (buf.deleteChar).1, handledResult)
  | .enter => (s, (buf.insertLine).1, handledResult)
  | .tab =>
    let b1 := (buf.insertChar ' ').1
    let b2 := (b1.insertChar ' ').1
    let b3 := (b2.insertChar ' ').1
    let b4 := (b3.insertChar ' ').1
    (s, b4, handledResult)
  | .up => (s, buf.moveCursor (-1) 0, handledResult)
  | .down => (s, buf.moveCursor 1 0, handledResult)
  | .left => (s, buf.moveCursor 0 (-1), handledResult)
  | .right => (s, buf.moveCursor 0 1, handledResult)
  | .home => (s, buf.setCursor ⟨buf.cursor.line, 0⟩, handledResult)
  | .keyEnd =>
    (s, buf.setCursor ⟨buf.cursor.line, (buf.currentLine.length : Int)⟩, handledResult)
  | .ctrlC => (s, buf, switchResult .normal)
  | .ctrlS =>
    (s, if buf.filename ≠ [] then (buf.save env.writeOk).1 else buf, handledResult)
  | .ctrlSpace =>
    (if s.lspSet then insertTriggerCompletion env s buf else s, buf, handledResult)
  | _ => (s, buf, notHandledResult)

/-- `InsertMode.HandleInput`: completion-popup navigation first, then the
main switch. -/
def insertHandleInput (env : Env) (s : InsertModeState) (ev : KeyEvent)
    (buf : Buffer) : InsertModeState × Buffer × ModeResult :=
  if s.showingCompletion then
    match ev.action with
    | .up =>
      let s1 :=
        if 0 < s.selectedIndex then { s with selectedIndex := s.selectedIndex - 1 } else s
      (s1, buf, handledResult)
    | .down =>
      let s1 :=
        if s.selectedIndex < (s.completions.length : Int) - 1 then
          { s with selectedIndex := s.selectedIndex + 1 }
        else s
      (s1, buf, handledResult)
    | .tab =>
      let buf1 :=
        if s.selectedIndex < (s.completions.length : Int) then
          insertApplyCompletion buf (s.completions.getD s.selectedIndex.toNat ⟨[], [], [], []⟩)
        else buf
      (insertHideCompletion s, buf1, handledResult)
    | .enter =>
      let buf1 :=
        if s.selectedIndex < (s.completions.length : Int) then
          insertApplyCompletion buf (s.completions.getD s.selectedIndex.toNat ⟨[], [], [], []⟩)
        else buf
      (insertHideCompletion s, buf1, handledResult)
    | .escape => (insertHideCompletion s, buf, handledResult)
    | _ => insertHandleInputMain env s ev buf
  else insertHandleInputMain env s ev buf

/-- `InsertMode.OnExit`: move the cursor back onto a character when it sits
past the end of a non-empty line. -/
def insertOnExit (buf : Buffer) : Buffer :=
  let cursor := buf.cursor
  let lineLen := buf.currentLine.length
  if 0 < cursor.col ∧ (lineLen : Int) ≤ cursor.col ∧ 0 < lineLen then
    buf.setCursor ⟨cursor.line, (lineLen : Int) - 1⟩
  else buf

/-! #### Visual mode (`visual.go`) -/

/-- Visual mode's word motions treat only ' ' and '\t' as separators. -/
def isSpaceTab (c : Char) : Bool := c = ' ' || c = '\t'

def visualMoveWordForward (buf : Buffer) : Buffer :=
  let cursor := buf.cursor
  let line := buf.currentLine
  if (line.length : Int) ≤ cursor.col then
    if cursor.line < (buf.lineCount : Int) - 1 then
      buf.setCursor ⟨cursor.line + 1, 0⟩
    else buf
  else
    let runes := line
    let col1 := scanWhile (fun ch => !isSpaceTab ch) runes cursor.col.toNat
    let col2 := scanWhile isSpaceTab runes col1
    if runes.length ≤ col2 ∧ cursor.line < (buf.lineCount : Int) - 1 then
      buf.setCursor ⟨cursor.line + 1, 0⟩
    else
      buf.setCursor ⟨cursor.line, (col2 : Int)⟩

def visualMoveWordBackward (buf : Buffer) : Buffer :=
  let cursor := buf.cursor
  if cursor.col ≤ 0 then
    if 0 < cursor.line then
      let prevLine := buf.lineAt (cursor.line - 1)
      buf.setCursor ⟨cursor.line - 1, (prevLine.length : Int)⟩
    else buf
  else
    let runes := buf.currentLine
    let col1 := scanBack isSpaceTab runes (cursor.col - 1)
    let col2 := scanBack (fun ch => !isSpaceTab ch) runes col1
    let col3 := col2 + 1
    let col4 := if col3 < 0 then 0 else col3
    buf.setCursor ⟨cursor.line, col4⟩

def visualMoveToWordEnd (buf : Buffer) : Buffer :=
  let cursor := buf.cursor
  let runes := buf.currentLine
  if (runes.length : Int) - 1 ≤ cursor.col then
    if cursor.line < (buf.lineCount : Int) - 1 then
      let nextRunes := buf.lineAt (cursor.line + 1)
      let col1 := scanWhile isSpaceTab nextRunes 0
      let col2 := scanWhile (fun ch => !isSpaceTab ch) nextRunes col1
      let col3 := if 0 < col2 then col2 - 1 else col2
      buf.setCursor ⟨cursor.line + 1, (col3 : Int)⟩
    else buf
  else
    let col1 := scanWhile isSpaceTab runes (cursor.col + 1).toNat
    let col2 := scanWhile (fun ch => !isSpaceTab ch) runes col1
    let col3 := if 0 < col2 then col2 - 1 else col2
    buf.setCursor ⟨cursor.line, (col3 : Int)⟩

/-- `VisualMode.handleCharacter`: motions extend the selection; `d`/`x`/`y`
return to Normal (span materialization is left unimplemented in the source). -/
def visualHandleCharacter (ch : Char) (buf : Buffer) : Buffer × ModeResult :=
  match ch with
  | 'h' => (buf.moveCursor 0 (-1), handledResult)
  | 'j' => (buf.moveCursor 1 0, handledResult)
  | 'k' => (buf.moveCursor (-1) 0, handledResult)
  | 'l' => (buf.moveCursor 0 1, handledResult)
  | '0' => (buf.setCursor ⟨buf.cursor.line, 0⟩, handledResult)
  | '$' => (buf.setCursor ⟨buf.cursor.line, (buf.currentLine.length : Int)⟩, handledResult)
  | 'w' => (visualMoveWordForward buf, handledResult)
  | 'b' => (visualMoveWordBackward buf, handledResult)
  | 'e' => (visualMoveToWordEnd buf, handledResult)
  | 'd' => (buf, switchResult .normal)
  | 'x' => (buf, switchResult .normal)
  | 'y' => (buf, switchResult .normal)
  | 'i' => (buf, switchResult .insert)
  | _ => (buf, notHandledResult)

/-- `VisualMode.HandleInput`. -/
def visualHandleInput (s : VisualModeState) (ev : KeyEvent) (buf : Buffer) :
    VisualModeState × Buffer × ModeResult :=
  match ev.action with
  | .escape => (s, buf, switchResult .normal)
  | .char => let (b, r) := visualHandleCharacter ev.rune buf; (s, b, r)
  | .up => (s, buf.moveCursor (-1) 0, handledResult)
  | .down => (s, buf.moveCursor 1 0, handledResult)
  | .left => (s, buf.moveCursor 0 (-1), handledResult)
  | .right => (s, buf.moveCursor 0 1, handledResult)
  | .home => (s, buf.setCursor ⟨buf.cursor.line, 0⟩, handledResult)
  | .keyEnd =>
    (s, buf.setCursor ⟨buf.cursor.line, (buf.currentLine.length : Int)⟩, handledResult)
  | .ctrlC => (s, buf, switchResult .normal)
  | _ => (s, buf, notHandledResult)

/-- `VisualMode.OnEnter` records the selection anchor. -/
def visualOnEnter (s : VisualModeState) (buf : Buffer) : VisualModeState :=
  { s with startPos := buf.cursor }

/-! #### Command mode (`command.go`) -/

/-- `CommandMode.executeCommand`: an empty line just returns to Normal;
otherwise the line runs through the executor (whose registry is the built-in
one), its message is stored, the line cleared, and the result mapped to an
exit, a switch to Normal, or staying in Command mode. -/
def commandExecuteCommand (env : Env) (s : CommandModeState) (buf : Buffer) :
    CommandModeState × Buffer × ModeResult :=
  if s.commandLine = [] then (s, buf, switchResult .normal)
  else
    let (result, buf1) := executorExecute newCommandRegistry env s.commandLine buf
    let s1 := { s with message := result.message, commandLine := [] }
    if result.exitEditor then (s1, buf1, ⟨Option.none, true, true⟩)
    else if result.switchMode then (s1, buf1, switchResult .normal)
    else (s1, buf1, handledResult)

/-- `CommandMode.HandleInput`. -/
def commandHandleInput (env : Env) (s : CommandModeState) (ev : KeyEvent)
    (buf : Buffer) : CommandModeState × Buffer × ModeResult :=
  match ev.action with
  | .escape =>
    ({ s with commandLine := [], message := [] }, buf, switchResult .normal)
  | .enter => commandExecuteCommand env s buf
  | .backspace =>
    let s1 :=
      if 0 < s.commandLine.length then
        { s with commandLine := s.commandLine.take (s.commandLine.length - 1) }
      else s
    (s1, buf, handledResult)
  | .char => ({ s with commandLine := s.commandLine ++ [ev.rune] }, buf, handledResult)
  | .ctrlC =>
    ({ s with commandLine := [], message := [] }, buf, switchResult .normal)
  | _ => (s, buf, notHandledResult)

/-! #### Mode dispatch and the ModeManager (`mode.go`) -/

/-- `Mode.HandleInput`, dispatched on the mode variant; returns the mode's
updated private state, the buffer and the result. -/
def Mode.handleInput (m : Mode) (env : Env) (ev : KeyEvent) (buf : Buffer) :
    Mode × Buffer × ModeResult :=
  match m with
  | .normalM s => let (s1, b, r) := normalHandleInput s ev buf; (.normalM s1, b, r)
  | .insertM s => let (s1, b, r) := insertHandleInput env s ev buf; (.insertM s1, b, r)
  | .visualM s => let (s1, b, r) := visualHandleInput s ev buf; (.visualM s1, b, r)
  | .commandM s => let (s1, b, r) := commandHandleInput env s ev buf; (.commandM s1, b, r)

/-- `Mode.OnEnter` (called by the manager only with a non-nil buffer):
Normal clamps the cursor, Visual records the anchor, Command clears its line
and message, Insert does nothing. -/
def Mode.onEnter (m : Mode) (buf : Buffer) : Mode × Buffer :=
  match m with
  | .normalM s => (.normalM s, normalOnEnter buf)
  | .insertM s => (.insertM s, buf)
  | .visualM s => (.visualM (visualOnEnter s buf), buf)
  | .commandM _ => (.commandM ⟨[], []⟩, buf)

/-- `Mode.OnExit`: Insert clamps the cursor back onto the line, Command
clears its command line, the others do nothing. -/
def Mode.onExit (m : Mode) (buf : Buffer) : Mode × Buffer :=
  match m with
  | .normalM s => (.normalM s, buf)
  | .insertM s => (.insertM s, insertOnExit buf)
  | .visualM s => (.visualM s, buf)
  | .commandM s => (.commandM { s with commandLine := [] }, buf)

/-- `modes.ModeManager`.  In Go `currentMode` is a pointer aliasing the entry
of `modes[currentMode.Type()]` (it is only ever assigned from that map, and
`RegisterMode` is not called again afterwards), so the current mode is
represented by its `ModeType` key and the single copy of each mode's state
lives in the map. -/
structure ModeManager where
  currentMode : Option ModeType
  modes : ModeType → Option Mode

def ModeManager.registerMode (mm : ModeManager) (m : Mode) : ModeManager :=
  { mm with modes := fun t => if t = m.type then some m else mm.modes t }

/-- `ModeManager.SwitchToMode`: a no-op when the target mode is not
registered; otherwise runs the current mode's exit hook and the new mode's
enter hook (each only when a buffer is present) and makes the target
current. -/
def ModeManager.switchToMode (mm : ModeManager) (t : ModeType) (buf : Option Buffer) :
    ModeManager × Option Buffer :=
  match mm.modes t with
  | Option.none => (mm, buf)
  | some _ =>
    let (mm1, buf1) :=
      match mm.currentMode, buf with
      | some curT, some b =>
        match mm.modes curT with
        | some cur =>
          let (cur1, b1) := cur.onExit b
          ({ mm with modes := fun u => if u = curT then some cur1 else mm.modes u },
           some b1)
        | Option.none => (mm, buf)
      | _, _ => (mm, buf)
    let mm2 := { mm1 with currentMode := some t }
    match buf1 with
    | some b =>
      match mm2.modes t with
      | some m =>
        let (m1, b1) := m.onEnter b
        ({ mm2 with modes := fun u => if u = t then some m1 else mm2.modes u }, some b1)
      | Option.none => (mm2, buf1)
    | Option.none => (mm2, buf1)

/-- `modes.NewModeManager`: registers the Normal, Insert and Visual modes
(and no others), then switches to Normal with no buffer. -/
def newModeManager : ModeManager :=
  let mm : ModeManager := ⟨Option.none, fun _ => Option.none⟩
  let mm := mm.registerMode newNormalMode
  let mm := mm.registerMode newInsertMode
  let mm := mm.registerMode newVisualMode
  (mm.switchToMode .normal Option.none).1

/-- `ModeManager.HandleInput`: dispatch to the current mode, store its
updated state back, then apply any requested mode switch. -/
def ModeManager.handleInput (mm : ModeManager) (env : Env) (ev : KeyEvent)
    (buf : Buffer) : ModeManager × Buffer × ModeResult :=
  match mm.currentMode with
  | Option.none => (mm, buf, notHandledResult)
  | some curT =>
    match mm.modes curT with
    | Option.none => (mm, buf, notHandledResult)
    | some cur =>
      let (cur1, buf1, result) := cur.handleInput env ev buf
      let mm1 := { mm with modes := fun u => if u = curT then some cur1 else mm.modes u }
      match result.switchToMode with
      | some t =>
        let (mm2, buf2) := mm1.switchToMode t (some buf1)
        (mm2, buf2.getD buf1, result)
      | Option.none => (mm1, buf1, result)

/-- `ModeManager.CurrentModeType` (Normal when no mode is current). -/
def ModeManager.currentModeType (mm : ModeManager) : ModeType :=
  match mm.currentMode with
  | Option.none => .normal
  | some t => t

/-! ### Claims C3, C4 and C8 -/

/-- Claim C3 (code bug): with a fresh ModeManager (active mode Normal, no
pending g-prefix), dispatching ':' produces a result requesting ModeCommand,
and CommandMode's on-enter hook does clear its command-line buffer — but
NewModeManager never registers a Command mode, so SwitchToMode is a no-op
and the active mode afterwards is still Normal, not Command as claimed. -/
theorem C3_colon_leaves_active_mode_normal :
    (newModeManager.handleInput defaultEnv ⟨.char, ':'⟩ Buffer.new).2.2.switchToMode =
      some ModeType.command ∧
    newModeManager.modes ModeType.command = Option.none ∧
    (newModeManager.handleInput defaultEnv ⟨.char, ':'⟩ Buffer.new).1.currentModeType =
      ModeType.normal ∧
    (Mode.commandM ⟨str "w", str "msg"⟩).onEnter Buffer.new =
      (Mode.commandM ⟨[], []⟩, Buffer.new) :=
  ⟨rfl, rfl, rfl, rfl⟩

/-- Claim C4 (counterexample): `quit` on a modified buffer is a registered
command whose handler returns `exitEditor = false` and `switchMode = false`,
yet `CommandExecutor.Execute` hands the result back with `switchMode` forced
to `true` — not still `false` as the claim states. -/
theorem C4_counterexample_quit_modified :
    (quitCommand.exec defaultEnv [] ⟨[[]], ⟨0, 0⟩, [], true⟩).1.exitEditor = false ∧
    (quitCommand.exec defaultEnv [] ⟨[[]], ⟨0, 0⟩, [], true⟩).1.switchMode = false ∧
    newCommandRegistry (str "q") = some quitCommand ∧
    (executorExecute newCommandRegistry defaultEnv (str "q")
      ⟨[[]], ⟨0, 0⟩, [], true⟩).1.switchMode = true :=
  ⟨rfl, rfl, rfl, rfl⟩

/-- Claim C4 (amended): for every registry, environment, command line and
buffer, whenever `CommandExecutor.Execute` returns a result with
`exitEditor = false`, that result has `switchMode = true` (the session
returns to Normal mode); a handler result reaches the caller with
`switchMode = false` only when it requests `exitEditor`. -/
theorem C4_execute_forces_switch_mode (reg : Registry) (env : Env) (cmdLine : Str)
    (buf : Buffer)
    (h : (executorExecute reg env cmdLine buf).1.exitEditor = false) :
    (executorExecute reg env cmdLine buf).1.switchMode = true := by
  revert h
  rcases hp : parseCommand cmdLine with _ | ⟨nm, args⟩
  · simp only [executorExecute, hp]
    intro _
    trivial
  · simp only [executorExecute, hp]
    rcases hr : reg nm with _ | cmd
    · simp only [hr]
      intro _
      trivial
    · simp only [hr]
      rcases hx : cmd.exec env args buf with ⟨result, buf1⟩
      simp only [hx]
      cases he : result.exitEditor
      · intro _
        simp [he]
      · intro h
        simp [he] at h

/-- Witness for the amended C4 at the quit-on-modified-buffer input. -/
theorem C4_execute_forces_switch_mode_witness :
    (executorExecute newCommandRegistry defaultEnv (str "q")
      ⟨[[]], ⟨0, 0⟩, [], true⟩).1.switchMode = true :=
  C4_execute_forces_switch_mode newCommandRegistry defaultEnv (str "q")
    ⟨[[]], ⟨0, 0⟩, [], true⟩ rfl

/-- Claim C8: executing the quit command through the executor succeeds with
`exitEditor = true` exactly when the buffer is unmodified; on a modified
buffer it fails with the force-quit/save-and-quit message and does not
request exit. -/
theorem C8_quit_succeeds_iff_unmodified (env : Env) (buf : Buffer) :
    (((executorExecute newCommandRegistry env (str "q") buf).1.success = true ∧
      (executorExecute newCommandRegistry env (str "q") buf).1.exitEditor = true) ↔
        buf.modified = false) ∧
    (buf.modified = true →
      (executorExecute newCommandRegistry env (str "q") buf).1.success = false ∧
      (executorExecute newCommandRegistry env (str "q") buf).1.exitEditor = false ∧
      (executorExecute newCommandRegistry env (str "q") buf).1.message =
        str "Buffer has unsaved changes. Use :q! to force quit or :wq to save and quit") := by
  rcases buf with ⟨lines, cur, fn, md⟩
  cases md
  · exact And.intro (Iff.intro (fun _ => rfl) (fun _ => And.intro rfl rfl))
      (fun h => nomatch h)
  · exact And.intro (Iff.intro (fun h => nomatch h.1) (fun h => nomatch h))
      (fun _ => ⟨rfl, rfl, rfl⟩)

/-- Witness for C8 on a concrete modified buffer. -/
theorem C8_quit_succeeds_iff_unmodified_witness :
    (executorExecute newCommandRegistry defaultEnv (str "q")
      ⟨[[]], ⟨0, 0⟩, [], true⟩).1.success = false ∧
    (executorExecute newCommandRegistry defaultEnv (str "q")
      ⟨[[]], ⟨0, 0⟩, [], true⟩).1.exitEditor = false :=
  ⟨((C8_quit_succeeds_iff_unmodified defaultEnv ⟨[[]], ⟨0, 0⟩, [], true⟩).2 rfl).1,
   ((C8_quit_succeeds_iff_unmodified defaultEnv ⟨[[]], ⟨0, 0⟩, [], true⟩).2 rfl).2.1⟩

/-! ### Claim C5 -/

/-- Claim C5: for every buffer satisfying the cursor invariant with the
cursor at column 0: on a line with index > 0, backspace succeeds, appends the
current line's text to the end of the previous line with no separator,
removes the current line, and puts the cursor at the previous line's former
length; at line 0 it returns an error and leaves the buffer unchanged. -/
theorem C5_backspace_at_column_zero (b : Buffer) (h : cursorInv b)
    (hc : b.cursor.col = 0) :
    (0 < b.cursor.line →
      (b.backspace).2 = true ∧
      (b.backspace).1.lines =
        b.lines.take (b.cursor.line.toNat - 1) ++
          [getIdx b.lines (b.cursor.line - 1) ++ getIdx b.lines b.cursor.line] ++
          b.lines.drop (b.cursor.line.toNat + 1) ∧
      (b.backspace).1.cursor =
        ⟨b.cursor.line - 1, ((getIdx b.lines (b.cursor.line - 1)).length : Int)⟩) ∧
    (b.cursor.line = 0 → (b.backspace).2 = false ∧ (b.backspace).1 = b) := by
  obtain ⟨h1, h2, h3, h4⟩ := h
  constructor
  · intro hl
    have hln : b.cursor.line.toNat < b.lines.length := by omega
    have hl1 : b.cursor.line.toNat - 1 < b.lines.length := by omega
    have hset : b.lines.set (b.cursor.line.toNat - 1)
        (getIdx b.lines (b.cursor.line - 1) ++ getIdx b.lines b.cursor.line) =
        b.lines.take (b.cursor.line.toNat - 1) ++
          (getIdx b.lines (b.cursor.line - 1) ++ getIdx b.lines b.cursor.line) ::
          b.lines.drop b.cursor.line.toNat := by
      rw [List.set_eq_take_append_cons_drop, if_pos hl1,
        show b.cursor.line.toNat - 1 + 1 = b.cursor.line.toNat from by omega]
    have hlenA : (b.lines.take (b.cursor.line.toNat - 1)).length =
        b.cursor.line.toNat - 1 := by
      simp [List.length_take]
      omega
    have htake : (b.lines.take (b.cursor.line.toNat - 1) ++
        (getIdx b.lines (b.cursor.line - 1) ++ getIdx b.lines b.cursor.line) ::
          b.lines.drop b.cursor.line.toNat).take b.cursor.line.toNat =
        b.lines.take (b.cursor.line.toNat - 1) ++
          [getIdx b.lines (b.cursor.line - 1) ++ getIdx b.lines b.cursor.line] := by
      rw [List.take_append_eq_append_take,
        List.take_of_length_le (show (b.lines.take (b.cursor.line.toNat - 1)).length ≤
          b.cursor.line.toNat from by rw [hlenA]; omega),
        hlenA,
        show b.cursor.line.toNat - (b.cursor.line.toNat - 1) = 1 from by omega]
      simp
    have hdrop : (b.lines.take (b.cursor.line.toNat - 1) ++
        (getIdx b.lines (b.cursor.line - 1) ++ getIdx b.lines b.cursor.line) ::
          b.lines.drop b.cursor.line.toNat).drop (b.cursor.line.toNat + 1) =
        b.lines.drop (b.cursor.line.toNat + 1) := by
      rw [List.drop_append_eq_append_drop,
        List.drop_eq_nil_of_le (show (b.lines.take (b.cursor.line.toNat - 1)).length ≤
          b.cursor.line.toNat + 1 from by rw [hlenA]; omega),
        hlenA,
        show b.cursor.line.toNat + 1 - (b.cursor.line.toNat - 1) = 2 from by omega]
      simp [List.drop_drop]
    simp only [Buffer.backspace]
    split_ifs with hc1 hc2
    · exact absurd hc1 (by omega)
    · exact absurd hc2 (by omega)
    · refine ⟨rfl, ?_, rfl⟩
      dsimp only
      rw [hset, htake, hdrop]
  · intro hl
    simp only [Buffer.backspace]
    split_ifs <;> exact ⟨rfl, rfl⟩

/-- Witness for C5 on the spec's own scenario: lines ["hello","world"],
cursor {1,0} — backspace yields one line "helloworld" with cursor {0,5}. -/
theorem C5_backspace_at_column_zero_witness :
    ((⟨[str "hello", str "world"], ⟨1, 0⟩, [], false⟩ : Buffer).backspace).2 = true ∧
    ((⟨[str "hello", str "world"], ⟨1, 0⟩, [], false⟩ : Buffer).backspace).1.lines =
      [str "helloworld"] ∧
    ((⟨[str "hello", str "world"], ⟨1, 0⟩, [], false⟩ : Buffer).backspace).1.cursor =
      ⟨0, 5⟩ := by
  have hthm := (C5_backspace_at_column_zero
    ⟨[str "hello", str "world"], ⟨1, 0⟩, [], false⟩ (by decide) rfl).1 (by decide)
  exact ⟨hthm.1, hthm.2.1.trans (by decide), hthm.2.2.trans (by decide)⟩

/-! ### Claims C6 and C7 -/

lemma set_getIdx_self (ls : List Str) (i : Int) (h : i.toNat < ls.length) :
    ls.set i.toNat (getIdx ls i) = ls := by
  apply List.ext_getElem?
  intro n
  rcases eq_or_ne n i.toNat with hn | hn
  · subst hn
    rw [List.getElem?_set_self h, getIdx_eq, List.getElem?_eq_getElem h]
    rfl
  · rw [List.getElem?_set_ne (Ne.symm hn)]

/-- Claim C6: splitting line `L` at any valid column `k` with insertLine,
moving the cursor back to the first line, and joining with joinLines yields
the original line back — except that a single space separator appears
between the halves when both are non-empty. -/
theorem C6_split_then_join (L : Str) (k : Nat) (hk : k ≤ L.length) :
    ((Buffer.mk [L] ⟨0, (k : Int)⟩ [] false).insertLine).2 = true ∧
    ((((Buffer.mk [L] ⟨0, (k : Int)⟩ [] false).insertLine).1.setCursor
        ⟨0, 0⟩).joinLines).2 = true ∧
    ((((Buffer.mk [L] ⟨0, (k : Int)⟩ [] false).insertLine).1.setCursor
        ⟨0, 0⟩).joinLines).1.lines =
      [if 0 < k ∧ k < L.length then L.take k ++ [' '] ++ L.drop k else L] := by
  have hg : getIdx [L] (0 : Int) = L := rfl
  have e1 : (Buffer.mk [L] ⟨0, (k : Int)⟩ [] false).insertLine =
      (⟨[L.take k, L.drop k], ⟨1, 0⟩, [], true⟩, true) := by
    simp only [Buffer.insertLine]
    rw [if_neg (by simp), if_neg (by rw [hg]; omega)]
    simp [getIdx]
  rw [e1]
  have e2 : (⟨[L.take k, L.drop k], ⟨1, 0⟩, [], true⟩ : Buffer).setCursor ⟨0, 0⟩ =
      ⟨[L.take k, L.drop k], ⟨0, 0⟩, [], true⟩ := by
    simp [Buffer.setCursor, getIdx]
  dsimp only
  rw [e2]
  have hsep : (0 < (L.take k).length ∧ 0 < (L.drop k).length) ↔
      (0 < k ∧ k < L.length) := by
    simp only [List.length_take, List.length_drop]
    omega
  have e3 : (⟨[L.take k, L.drop k], ⟨0, 0⟩, [], true⟩ : Buffer).joinLines =
      (⟨[L.take k ++
          (if 0 < (L.take k).length ∧ 0 < (L.drop k).length then [' '] else []) ++
          L.drop k], ⟨0, 0⟩, [], true⟩, true) := by
    simp only [Buffer.joinLines]
    rw [if_neg (by simp)]
    simp [getIdx]
  rw [e3]
  refine ⟨by trivial, by trivial, ?_⟩
  by_cases hcond : 0 < k ∧ k < L.length
  · rw [if_pos (hsep.mpr hcond), if_pos hcond]
  · rw [if_neg (fun hx => hcond (hsep.mp hx)), if_neg hcond]
    simp [List.take_append_drop]

/-- Witness for C6 at L = "ab", k = 1 (both halves non-empty, so the space
separator appears). -/
theorem C6_split_then_join_witness :
    ((((Buffer.mk [str "ab"] ⟨0, ((1 : Nat) : Int)⟩ [] false).insertLine).1.setCursor
        ⟨0, 0⟩).joinLines).1.lines = [str "a b"] :=
  (C6_split_then_join (str "ab") 1 (by decide)).2.2.trans (by decide)

/-- Claim C7: for every buffer satisfying the cursor invariant, insertChar
succeeds, the immediately following backspace succeeds, and together they
restore the prior lines and the prior cursor position. -/
theorem C7_insert_then_backspace (b : Buffer) (ch : Char) (h : cursorInv b) :
    (b.insertChar ch).2 = true ∧
    (((b.insertChar ch).1).backspace).2 = true ∧
    (((b.insertChar ch).1).backspace).1.lines = b.lines ∧
    (((b.insertChar ch).1).backspace).1.cursor = b.cursor := by
  obtain ⟨h1, h2, h3, h4⟩ := h
  have hln : b.cursor.line.toNat < b.lines.length := by omega
  have e1 : b.insertChar ch =
      ({ b with
          lines := b.lines.set b.cursor.line.toNat
            ((getIdx b.lines b.cursor.line).take b.cursor.col.toNat ++ [ch] ++
              (getIdx b.lines b.cursor.line).drop b.cursor.col.toNat),
          cursor := ⟨b.cursor.line, b.cursor.col + 1⟩,
          modified := true }, true) := by
    simp only [Buffer.insertChar]
    rw [if_neg (by omega), if_neg (by omega)]
  rw [e1]
  dsimp only
  have hgi : getIdx (b.lines.set b.cursor.line.toNat
      ((getIdx b.lines b.cursor.line).take b.cursor.col.toNat ++ [ch] ++
        (getIdx b.lines b.cursor.line).drop b.cursor.col.toNat)) b.cursor.line =
      (getIdx b.lines b.cursor.line).take b.cursor.col.toNat ++ [ch] ++
        (getIdx b.lines b.cursor.line).drop b.cursor.col.toNat :=
    getIdx_set_self _ _ _ _ hln rfl
  simp only [Buffer.backspace]
  rw [if_neg (by simp only [List.length_set]; omega), if_neg (by omega)]
  rw [hgi]
  refine ⟨by trivial, by trivial, ?_, ?_⟩
  · rw [List.set_set]
    have harith1 : (b.cursor.col + 1).toNat - 1 = b.cursor.col.toNat := by omega
    have harith2 : (b.cursor.col + 1).toNat = b.cursor.col.toNat + 1 := by omega
    rw [harith1, harith2]
    have hX : ((getIdx b.lines b.cursor.line).take b.cursor.col.toNat).length =
        b.cursor.col.toNat := by
      simp only [List.length_take]
      omega
    have ht : ((getIdx b.lines b.cursor.line).take b.cursor.col.toNat ++ [ch] ++
        (getIdx b.lines b.cursor.line).drop b.cursor.col.toNat).take b.cursor.col.toNat =
        (getIdx b.lines b.cursor.line).take b.cursor.col.toNat := by
      rw [List.append_assoc, List.take_left' hX]
    have hd : ((getIdx b.lines b.cursor.line).take b.cursor.col.toNat ++ [ch] ++
        (getIdx b.lines b.cursor.line).drop b.cursor.col.toNat).drop
          (b.cursor.col.toNat + 1) =
        (getIdx b.lines b.cursor.line).drop b.cursor.col.toNat :=
      List.drop_left' (by simp [hX])
    rw [ht, hd, List.take_append_drop]
    exact set_getIdx_self b.lines b.cursor.line hln
  · rw [show b.cursor.col + 1 - 1 = b.cursor.col from by omega]

/-- Witness for C7: inserting 'x' into "hello" at column 2 and backspacing
restores the line and the cursor. -/
theorem C7_insert_then_backspace_witness :
    ((((⟨[str "hello"], ⟨0, 2⟩, [], false⟩ : Buffer).insertChar 'x').1).backspace).1.lines =
      [str "hello"] ∧
    ((((⟨[str "hello"], ⟨0, 2⟩, [], false⟩ : Buffer).insertChar 'x').1).backspace).1.cursor =
      ⟨0, 2⟩ :=
  ⟨(C7_insert_then_backspace ⟨[str "hello"], ⟨0, 2⟩, [], false⟩ 'x' (by decide)).2.2.1,
   (C7_insert_then_backspace ⟨[str "hello"], ⟨0, 2⟩, [], false⟩ 'x' (by decide)).2.2.2⟩

/-! ### Claims C9 and C10 -/

lemma length_takeWhile_le (p : Char → Bool) (xs : Str) :
    (xs.takeWhile p).length ≤ xs.length := by
  induction xs with
  | nil => simp
  | cons a l ih =>
    by_cases hp : p a <;> simp [List.takeWhile_cons, hp] <;> omega

/-- The Go scan loop computes exactly the length of the maximal run
satisfying `p` from the start column. -/
lemma scanWhile_eq (p : Char → Bool) (runes : Str) (col : Nat) :
    scanWhile p runes col = col + ((runes.drop col).takeWhile p).length := by
  rw [scanWhile]
  split_ifs with h1 h2
  · rw [scanWhile_eq p runes (col + 1)]
    rw [List.drop_eq_getElem_cons h1, List.takeWhile_cons]
    have h2x : p runes[col] = true := by simpa [List.get_eq_getElem] using h2
    rw [if_pos h2x]
    simp only [List.length_cons]
    omega
  · rw [List.drop_eq_getElem_cons h1, List.takeWhile_cons]
    have h2x : p runes[col] = false := by simpa [List.get_eq_getElem] using h2
    simp [h2x]
  · rw [List.drop_eq_nil_of_le (by omega)]
    simp
termination_by runes.length - col

/-- Modelled from the spec's description of the forward word motion: from
column `c`, the scan position after the maximal run of non-blank characters
starting at `c` followed by the maximal run of blank characters. -/
def specWordForwardStop (line : Str) (c : Nat) : Nat :=
  c + ((line.drop c).takeWhile (fun ch => !goIsSpace ch)).length +
    ((line.drop
        (c + ((line.drop c).takeWhile (fun ch => !goIsSpace ch)).length)).takeWhile
      goIsSpace).length

/-- Claim C9: with the cursor column strictly inside the current line, the
forward word motion moves the column past the maximal run of non-blank
characters at the cursor and then past the following run of blanks; when
that scan runs off the end of the line and a next line exists, the cursor
moves to column 0 of the next line instead.  The buffer text is untouched
and the event is handled. -/
theorem C9_move_word_forward (b : Buffer) (h : cursorInv b)
    (hcol : b.cursor.col < ((getIdx b.lines b.cursor.line).length : Int)) :
    (normalMoveWordForward b).2 = handledResult ∧
    (normalMoveWordForward b).1.lines = b.lines ∧
    (normalMoveWordForward b).1.cursor =
      (if (getIdx b.lines b.cursor.line).length ≤
            specWordForwardStop (getIdx b.lines b.cursor.line) b.cursor.col.toNat ∧
          b.cursor.line < (b.lines.length : Int) - 1
       then ⟨b.cursor.line + 1, 0⟩
       else ⟨b.cursor.line,
         (specWordForwardStop (getIdx b.lines b.cursor.line) b.cursor.col.toNat : Int)⟩) := by
  obtain ⟨h1, h2, h3, h4⟩ := h
  have hcl : b.currentLine = getIdx b.lines b.cursor.line := by
    simp only [Buffer.currentLine]
    rw [if_pos ⟨h1, h2⟩]
  have hstop : specWordForwardStop (getIdx b.lines b.cursor.line) b.cursor.col.toNat ≤
      (getIdx b.lines b.cursor.line).length := by
    have t1 := length_takeWhile_le (fun ch => !goIsSpace ch)
      ((getIdx b.lines b.cursor.line).drop b.cursor.col.toNat)
    have t2 := length_takeWhile_le goIsSpace
      ((getIdx b.lines b.cursor.line).drop
        (b.cursor.col.toNat +
          (((getIdx b.lines b.cursor.line).drop b.cursor.col.toNat).takeWhile
            (fun ch => !goIsSpace ch)).length))
    simp only [List.length_drop] at t1 t2
    simp only [specWordForwardStop]
    omega
  simp only [normalMoveWordForward, Buffer.lineCount]
  rw [hcl]
  rw [if_neg (by omega)]
  simp only [scanWhile_eq, specWordForwardStop]
  by_cases hcond : (getIdx b.lines b.cursor.line).length ≤
      specWordForwardStop (getIdx b.lines b.cursor.line) b.cursor.col.toNat ∧
      b.cursor.line < (b.lines.length : Int) - 1
  · simp only [specWordForwardStop] at hcond
    rw [if_pos hcond, if_pos hcond]
    refine ⟨rfl, rfl, ?_⟩
    simp only [Buffer.setCursor]
    rw [if_neg (by omega), if_neg (by omega), if_neg (by omega), if_neg (by omega)]
  · simp only [specWordForwardStop] at hcond
    rw [if_neg hcond, if_neg hcond]
    refine ⟨rfl, rfl, ?_⟩
    simp only [specWordForwardStop] at hstop
    simp only [Buffer.setCursor]
    rw [if_neg (by omega), if_neg (by omega), if_neg (by omega), if_neg (by omega)]

/-- Witness for C9: on the single line "ab cd" with the cursor at column 0,
`w` lands on column 3 (start of "cd"). -/
theorem C9_move_word_forward_witness :
    (normalMoveWordForward ⟨[str "ab cd"], ⟨0, 0⟩, [], false⟩).1.cursor = ⟨0, 3⟩ :=
  (C9_move_word_forward ⟨[str "ab cd"], ⟨0, 0⟩, [], false⟩ (by decide)
    (by decide)).2.2.trans (by decide)

/-- Claim C10: whenever a fallible Buffer operation (insertChar, deleteChar,
backspace, insertLine, joinLines, save, saveAs — and likewise
insertEmptyLine and deleteLine) reports an error, the buffer's lines,
cursor, filename and modified flag are all exactly as they were before the
call. -/
theorem C10_failure_is_atomic (op : BufOp) (b : Buffer)
    (h : (op.apply b).2 = false) : (op.apply b).1 = b := by
  cases op with
  | insertChar ch =>
    simp only [BufOp.apply, Buffer.insertChar] at h ⊢
    split_ifs at h ⊢ <;> first | rfl | simp at h
  | deleteChar =>
    simp only [BufOp.apply, Buffer.deleteChar] at h ⊢
    split_ifs at h ⊢ <;> first | rfl | simp at h
  | backspace =>
    simp only [BufOp.apply, Buffer.backspace] at h ⊢
    split_ifs at h ⊢ <;> first | rfl | simp at h
  | insertLine =>
    simp only [BufOp.apply, Buffer.insertLine] at h ⊢
    split_ifs at h ⊢ <;> first | rfl | simp at h
  | insertEmptyLine =>
    simp only [BufOp.apply, Buffer.insertEmptyLine] at h ⊢
    split_ifs at h ⊢ <;> first | rfl | simp at h
  | deleteLine =>
    simp only [BufOp.apply, Buffer.deleteLine] at h ⊢
    split_ifs at h ⊢ <;> first | rfl | simp at h
  | joinLines =>
    simp only [BufOp.apply, Buffer.joinLines] at h ⊢
    split_ifs at h ⊢ <;> first | rfl | simp at h
  | setCursor pos => simp [BufOp.apply] at h
  | moveCursor dl dc => simp [BufOp.apply] at h
  | save ok =>
    simp only [BufOp.apply, Buffer.save, Buffer.saveAs] at h ⊢
    split_ifs at h ⊢ <;> first | rfl | simp at h
  | saveAs f ok =>
    simp only [BufOp.apply, Buffer.saveAs] at h ⊢
    split_ifs at h ⊢ <;> first | rfl | simp at h

/-- Witness for C10: backspace at the very start of a buffer fails and
leaves the buffer unchanged. -/
theorem C10_failure_is_atomic_witness :
    ((BufOp.backspace).apply ⟨[str "hello"], ⟨0, 0⟩, [], false⟩).2 = false ∧
    ((BufOp.backspace).apply ⟨[str "hello"], ⟨0, 0⟩, [], false⟩).1 =
      ⟨[str "hello"], ⟨0, 0⟩, [], false⟩ :=
  ⟨by decide, C10_failure_is_atomic .backspace ⟨[str "hello"], ⟨0, 0⟩, [], false⟩ (by decide)⟩

end Aied
